import Mathlib

/-!
Shallow embedding of the squat repetition counter of this repository.

Sources embedded:
* src/Scripts/exercise_logic.py — class SquatCounter (constructor validation,
  reset, the static angle helper, landmark resolution and update) and the
  SquatEvent record it returns.
* src/squat_trainer.py — the inline three-stage squat state machine of main()
  (stages "Standing Up" / "Going Down" / "Coming Up" with thresholds 170 / 90).

Modelling choices:
* Python floats are modelled by an ordered ring: the counter logic only
  subtracts and compares angles, so it is stated generically over a
  LinearOrderedRing; ℝ instantiates it for the full update, and concrete runs
  are evaluated over ℤ (whose arithmetic the kernel reduces). The angle
  computation (square roots, arccos) is over ℝ.
* float("nan") results are modelled by Option: none is the NaN / undefined
  angle, some x a finite angle.
* A Python landmark mapping is modelled by an association list; the counter
  raising no exception is modelled by totality of the Lean functions.
-/

/-- Result record of one counter update (class SquatEvent: angle, state,
rep_completed), with `none` standing for a NaN angle. -/
structure SquatEvent (α : Type) where
  angle : Option α
  state : String
  rep_completed : Bool
  deriving DecidableEq, Repr

/-- The persistent fields of a SquatCounter instance: the four construction
parameters, then rep_count, state and _last_angle as set up in __init__. -/
structure SquatCounter (α : Type) where
  side : String
  down_angle : α
  up_angle : α
  min_movement : α
  rep_count : Nat
  state : String
  last_angle : Option α
  deriving DecidableEq, Repr

/-- SquatCounter.__init__: rejects a side other than left / right with a
ValueError (modelled by Except.error), otherwise stores the configuration
unchanged and starts with rep_count = 0, state = "up", no last angle. -/
def SquatCounter.init {α : Type} (side : String) (down_angle up_angle min_movement : α) :
    Except String (SquatCounter α) :=
  if side = "left" ∨ side = "right" then
    Except.ok
      { side := side, down_angle := down_angle, up_angle := up_angle,
        min_movement := min_movement, rep_count := 0, state := "up", last_angle := none }
  else
    Except.error "Side must be left or right."

/-- SquatCounter.reset: rep_count back to 0, state back to "up", last angle
cleared; the configuration fields are untouched. -/
def SquatCounter.reset {α : Type} (c : SquatCounter α) : SquatCounter α :=
  { c with rep_count := 0, state := "up", last_angle := none }

/-- The Python builtin abs, written as a conditional so that it evaluates on
concrete inputs. -/
def absVal {α : Type} [LinearOrderedRing α] (x : α) : α :=
  if x < 0 then -x else x

/-- The noise-gate test of SquatCounter.update:
`last_angle is not None and abs(angle - last_angle) < self.min_movement`. -/
def noiseGated {α : Type} [LinearOrderedRing α] (last : Option α)
    (angle min_movement : α) : Bool :=
  match last with
  | some la => decide (absVal (angle - la) < min_movement)
  | none => false

/-- The tail of SquatCounter.update, from the point where a non-NaN angle has
been computed: store the angle as the new last angle, apply the noise gate,
then the two-state transition rule, and build the returned SquatEvent. -/
def SquatCounter.stepAngle {α : Type} [LinearOrderedRing α]
    (c : SquatCounter α) (angle : α) : SquatCounter α × SquatEvent α :=
  let c1 : SquatCounter α := { c with last_angle := some angle }
  if noiseGated c.last_angle angle c.min_movement then
    (c1, { angle := some angle, state := c1.state, rep_completed := false })
  else if c1.state = "up" ∧ angle ≤ c1.down_angle then
    let c2 : SquatCounter α := { c1 with state := "down" }
    (c2, { angle := some angle, state := c2.state, rep_completed := false })
  else if c1.state = "down" ∧ c1.up_angle ≤ angle then
    let c2 : SquatCounter α := { c1 with state := "up", rep_count := c1.rep_count + 1 }
    (c2, { angle := some angle, state := c2.state, rep_completed := true })
  else
    (c1, { angle := some angle, state := c1.state, rep_completed := false })

/-- Feed a list of already-computed (accepted by the caller) angle samples to
stepAngle, keeping only the final counter. -/
def SquatCounter.runAngles {α : Type} [LinearOrderedRing α]
    (c : SquatCounter α) (angles : List α) : SquatCounter α :=
  angles.foldl (fun acc θ => (acc.stepAngle θ).1) c

/-- A 2D landmark point, as stored in the landmark mapping. -/
abbrev Landmark : Type := ℝ × ℝ

/-- A landmark mapping (Python Mapping[str, Landmark]) as an association
list. -/
abbrev LandmarkMap : Type := List (String × Landmark)

/-- SquatCounter._angle, the static angle helper: vectors ba and bc, NaN when
either has zero norm, otherwise the arccos of the clipped cosine, in
degrees. -/
noncomputable def SquatCounter.angleAt (a b c : Landmark) : Option ℝ :=
  let ba : ℝ × ℝ := (a.1 - b.1, a.2 - b.2)
  let bc : ℝ × ℝ := (c.1 - b.1, c.2 - b.2)
  let ba_norm : ℝ := Real.sqrt (ba.1 * ba.1 + ba.2 * ba.2)
  let bc_norm : ℝ := Real.sqrt (bc.1 * bc.1 + bc.2 * bc.2)
  if ba_norm = 0 ∨ bc_norm = 0 then none
  else
    let cosine : ℝ := (ba.1 * bc.1 + ba.2 * bc.2) / (ba_norm * bc_norm)
    let clipped : ℝ := max (-1) (min cosine 1)
    some (Real.arccos clipped * (180 / Real.pi))

/-- SquatCounter._get_landmark: look up the side-qualified key first, then the
bare name; a miss on both is the KeyError case, modelled as none. -/
def get_landmark (side : String) (landmarks : LandmarkMap) (name : String) :
    Option Landmark :=
  match landmarks.lookup (side ++ "_" ++ name) with
  | some p => some p
  | none => landmarks.lookup name

/-- The try-block of SquatCounter.update: resolve hip, knee and ankle; any
missing one is the absorbed KeyError. -/
def resolveLandmarks (side : String) (landmarks : LandmarkMap) :
    Option (Landmark × Landmark × Landmark) :=
  match get_landmark side landmarks "hip", get_landmark side landmarks "knee",
      get_landmark side landmarks "ankle" with
  | some hip, some knee, some ankle => some (hip, knee, ankle)
  | _, _, _ => none

/-- SquatCounter.update: resolve the landmarks (missing one returns the
current state with a NaN angle), compute the angle (NaN likewise returns the
current state), otherwise run the stepAngle tail. -/
noncomputable def SquatCounter.update (c : SquatCounter ℝ) (landmarks : LandmarkMap) :
    SquatCounter ℝ × SquatEvent ℝ :=
  match resolveLandmarks c.side landmarks with
  | none => (c, { angle := none, state := c.state, rep_completed := false })
  | some (hip, knee, ankle) =>
    match SquatCounter.angleAt hip knee ankle with
    | none => (c, { angle := none, state := c.state, rep_completed := false })
    | some θ => c.stepAngle θ

/-- Feed a list of landmark frames through update, collecting the emitted
events. -/
noncomputable def SquatCounter.runUpdates (c : SquatCounter ℝ) (frames : List LandmarkMap) :
    SquatCounter ℝ × List (SquatEvent ℝ) :=
  match frames with
  | [] => (c, [])
  | lm :: rest =>
    let r1 := c.update lm
    let r2 := r1.1.runUpdates rest
    (r2.1, r1.2 :: r2.2)

/-- One step of the inline stage machine of src/squat_trainer.py main():
stage := "Standing Up" above 170, "Going Down" from "Standing Up" in
(90, 170], "Coming Up" with a count from "Going Down" at or below 90. -/
def stageStep {α : Type} [LinearOrderedRing α] (stage : String) (rep_count : Nat)
    (knee_angle : α) : String × Nat :=
  if 170 < knee_angle then ("Standing Up", rep_count)
  else if 90 < knee_angle ∧ knee_angle ≤ 170 ∧ stage = "Standing Up" then
    ("Going Down", rep_count)
  else if knee_angle ≤ 90 ∧ stage = "Going Down" then
    ("Coming Up", rep_count + 1)
  else (stage, rep_count)

/-! Helper lemmas shared by the claim theorems. -/

/-- The conditional abs agrees with the mathematical absolute value. -/
theorem absVal_eq_abs {α : Type} [LinearOrderedRing α] (x : α) : absVal x = |x| := by
  by_cases h : x < 0
  · rw [absVal, if_pos h, abs_of_neg h]
  · rw [absVal, if_neg h, abs_of_nonneg (le_of_not_lt h)]

/-- The noise gate fires exactly on a small delta against the stored sample. -/
theorem noiseGated_some_iff {α : Type} [LinearOrderedRing α] (la angle mm : α) :
    noiseGated (some la) angle mm = true ↔ |angle - la| < mm := by
  simp [noiseGated, absVal_eq_abs]

/-- When the counter rests in "up" and the sample is above the down threshold,
one step only records the sample as the last angle. -/
theorem stepAngle_up_no_transition {α : Type} [LinearOrderedRing α]
    (c : SquatCounter α) (θ : α) (hs : c.state = "up") (hθ : ¬ θ ≤ c.down_angle) :
    (c.stepAngle θ).1 = { c with last_angle := some θ } := by
  simp only [SquatCounter.stepAngle]
  split_ifs with hg h1 h2
  · rfl
  · exact absurd h1.2 hθ
  · exact absurd (hs.symm.trans h2.1) (by decide)
  · rfl

/-- Iterating a constant sample above the down threshold from the "up" state
never leaves "up" and never changes the count. -/
theorem runAngles_const_up {α : Type} [LinearOrderedRing α] (θ : α) :
    ∀ (n : ℕ) (c : SquatCounter α), c.state = "up" → c.down_angle < θ →
      (c.runAngles (List.replicate n θ)).state = "up" ∧
      (c.runAngles (List.replicate n θ)).rep_count = c.rep_count := by
  intro n
  induction n with
  | zero => exact fun c hs _ => ⟨hs, rfl⟩
  | succ k ih =>
    intro c hs hd
    have hstep := stepAngle_up_no_transition c θ hs (not_le.mpr hd)
    rw [List.replicate_succ]
    simp only [SquatCounter.runAngles, List.foldl_cons]
    rw [hstep]
    exact ih { c with last_angle := some θ } hs hd

/-! Claim theorems. -/

/-- C5: from a fresh counter with down_angle 70, up_angle 160, min_movement 5,
the accepted angle sequence [180, 60, 180] yields rep_count 1; the middle
update reports state "down" with rep_completed false and the final update
reports state "up" with rep_completed true. -/
theorem c5_one_count_per_down_up_cycle :
    (let c0 : SquatCounter ℤ :=
      { side := "left", down_angle := 70, up_angle := 160, min_movement := 5,
        rep_count := 0, state := "up", last_angle := none }
     let r1 := c0.stepAngle 180
     let r2 := r1.1.stepAngle 60
     let r3 := r2.1.stepAngle 180
     r2.2.state = "down" ∧ r2.2.rep_completed = false ∧
     r3.2.state = "up" ∧ r3.2.rep_completed = true ∧ r3.1.rep_count = 1) := by
  decide

/-- C8: reset sets rep_count to 0, state to "up" and clears last_angle while
leaving the configuration untouched, and reset twice equals reset once. -/
theorem c8_reset_postcondition_and_idempotence {α : Type} (c : SquatCounter α) :
    c.reset = { side := c.side, down_angle := c.down_angle, up_angle := c.up_angle,
                min_movement := c.min_movement, rep_count := 0, state := "up",
                last_angle := none } ∧
    c.reset.reset = c.reset :=
  ⟨rfl, rfl⟩

/-- C9: constructing with a side other than "left" or "right" fails with the
configuration error, while "left" or "right" succeeds and stores the
configuration unchanged with rep_count 0, state "up" and no last angle. -/
theorem c9_strict_side_validation {α : Type} (side : String) (d u m : α) :
    (¬ (side = "left" ∨ side = "right") →
      SquatCounter.init side d u m = Except.error "Side must be left or right.") ∧
    ((side = "left" ∨ side = "right") →
      SquatCounter.init side d u m =
        Except.ok { side := side, down_angle := d, up_angle := u, min_movement := m,
                    rep_count := 0, state := "up", last_angle := none }) := by
  constructor
  · intro h
    rw [SquatCounter.init, if_neg h]
  · intro h
    rw [SquatCounter.init, if_pos h]

/-- C9 witness: the invalid side "middle" is rejected and "left" is accepted,
at the default thresholds. -/
theorem c9_witness :
    SquatCounter.init "middle" (70 : ℤ) 160 5 =
      Except.error "Side must be left or right." ∧
    SquatCounter.init "left" (70 : ℤ) 160 5 =
      Except.ok { side := "left", down_angle := 70, up_angle := 160, min_movement := 5,
                  rep_count := 0, state := "up", last_angle := none } :=
  ⟨(c9_strict_side_validation "middle" 70 160 5).1 (by decide),
   (c9_strict_side_validation "left" 70 160 5).2 (by decide)⟩

/-- C1 counterexample: on SquatCounter with the default thresholds, the
flexion sample 60 arriving directly in the resting "up" state (no intermediate
sample between the thresholds was ever fed) moves the counter to "down", and
the following extension sample 180 completes a counted rep. -/
theorem c1_counterexample :
    (let c0 : SquatCounter ℤ :=
      { side := "left", down_angle := 70, up_angle := 160, min_movement := 5,
        rep_count := 0, state := "up", last_angle := none }
     let r1 := c0.stepAngle 60
     let r2 := r1.1.stepAngle 180
     c0.state = "up" ∧ (60 : ℤ) ≤ c0.down_angle ∧ r1.1.state = "down" ∧
     r1.2.rep_completed = false ∧ r2.2.rep_completed = true ∧ r2.1.rep_count = 1) := by
  decide

/-- C1 amended: SquatCounter realises a two-state discipline — a rep is
signalled only by an extension sample at or above up_angle taken in the "down"
state, and "down" is entered only from "up" by a flexion sample at or below
down_angle (no intermediate descending phase exists, so a flexion sample
straight from rest is honored). The stricter three-phase discipline holds for
the squat_trainer stage machine: its count rises only on a sample at or below
90 taken in stage "Going Down", and "Going Down" is reached from
"Standing Up", or kept, only by samples in the interval (90, 170]. -/
theorem c1_two_state_versus_three_phase {α : Type} [LinearOrderedRing α] :
    (∀ (c : SquatCounter α) (θ : α),
      ((c.stepAngle θ).2.rep_completed = true → c.state = "down" ∧ c.up_angle ≤ θ) ∧
      ((c.stepAngle θ).1.state = "down" →
        c.state = "down" ∨ (c.state = "up" ∧ θ ≤ c.down_angle))) ∧
    (∀ (stage : String) (rep : ℕ) (θ : α),
      (rep < (stageStep stage rep θ).2 → stage = "Going Down" ∧ θ ≤ 90) ∧
      ((stageStep stage rep θ).1 = "Going Down" →
        (stage = "Standing Up" ∨ stage = "Going Down") ∧ 90 < θ ∧ θ ≤ 170)) := by
  constructor
  · intro c θ
    constructor
    · intro h
      simp only [SquatCounter.stepAngle] at h
      split_ifs at h with hg h1 h2
      exact ⟨h2.1, h2.2⟩
    · intro h
      simp only [SquatCounter.stepAngle] at h
      split_ifs at h with hg h1 h2
      · exact Or.inl h
      · exact Or.inr h1
      · exact absurd (show ("up" : String) = "down" from h) (by decide)
      · exact Or.inl h
  · intro stage rep θ
    constructor
    · intro h
      simp only [stageStep] at h
      split_ifs at h with h1 h2 h3
      · exact absurd h (lt_irrefl rep)
      · exact absurd h (lt_irrefl rep)
      · exact ⟨h3.2, h3.1⟩
      · exact absurd h (lt_irrefl rep)
    · intro h
      simp only [stageStep] at h
      split_ifs at h with h1 h2 h3
      · exact absurd (show ("Standing Up" : String) = "Going Down" from h) (by decide)
      · exact ⟨Or.inl h2.2.2, h2.1, h2.2.1⟩
      · exact absurd (show ("Coming Up" : String) = "Going Down" from h) (by decide)
      · exact ⟨Or.inr h, not_le.mp (fun hle => h3 ⟨hle, h⟩), not_lt.mp h1⟩

/-- C1 witness: the amended per-step facts applied at concrete inputs — an
extension to 180 from "down" at thresholds 70/160 counts, and a stage-machine
count happens from "Going Down" at sample 80. -/
theorem c1_witness :
    ((⟨"left", 70, 160, 5, 0, "down", some 60⟩ : SquatCounter ℤ).state = "down" ∧
      (160 : ℤ) ≤ 180) ∧
    ("Going Down" = "Going Down" ∧ (80 : ℤ) ≤ 90) :=
  ⟨((c1_two_state_versus_three_phase (α := ℤ)).1
      ⟨"left", 70, 160, 5, 0, "down", some 60⟩ 180).1 (by decide),
   ((c1_two_state_versus_three_phase (α := ℤ)).2 "Going Down" 0 80).1 (by decide)⟩

/-- C2 counterexample: with min_movement 5 and last accepted angle 100, the
sample 102 is noise-gated (no state or count change is reported), yet the
counter state is not left unchanged — last_angle is overwritten with the
rejected sample 102. -/
theorem c2_counterexample :
    (let c : SquatCounter ℤ :=
      { side := "left", down_angle := 70, up_angle := 160, min_movement := 5,
        rep_count := 0, state := "up", last_angle := some 100 }
     absVal ((102 : ℤ) - 100) < c.min_movement ∧
     (c.stepAngle 102).2 = { angle := some 102, state := "up", rep_completed := false } ∧
     (c.stepAngle 102).1 ≠ c ∧
     (c.stepAngle 102).1.last_angle = some 102) := by
  decide

/-- C2 amended: a noise-gated update (previous sample exists and the delta is
below min_movement) reports the current angle with the unchanged state and no
rep, and leaves state and rep_count unchanged — but it does overwrite
last_angle with the rejected sample, so the min_movement delta is measured
against the most recent computed sample, even one that was itself
noise-rejected. -/
theorem c2_noise_gate_updates_last_angle {α : Type} [LinearOrderedRing α]
    (c : SquatCounter α) (la θ : α) (h1 : c.last_angle = some la)
    (h2 : |θ - la| < c.min_movement) :
    c.stepAngle θ = ({ c with last_angle := some θ },
      { angle := some θ, state := c.state, rep_completed := false }) := by
  have hg : noiseGated c.last_angle θ c.min_movement = true := by
    rw [h1, noiseGated_some_iff]
    exact h2
  simp only [SquatCounter.stepAngle, hg]
  rw [if_pos trivial]

/-- C2 witness: the amended statement at min_movement 5, last angle 100 and
sample 102. -/
theorem c2_witness :
    (⟨"left", 70, 160, 5, 0, "up", some 100⟩ : SquatCounter ℤ).stepAngle 102 =
      (⟨"left", 70, 160, 5, 0, "up", some 102⟩,
       { angle := some 102, state := "up", rep_completed := false }) :=
  c2_noise_gate_updates_last_angle ⟨"left", 70, 160, 5, 0, "up", some 100⟩ 100 102 rfl
    (abs_sub_lt_iff.mpr ⟨by norm_num, by norm_num⟩)

/-- C6: a counter resting in "up" with no stored last angle, fed any number of
copies of a constant sample lying strictly between the two thresholds, never
changes state and never changes rep_count. -/
theorem c6_dead_zone_stability {α : Type} [LinearOrderedRing α]
    (c : SquatCounter α) (θ : α) (n : ℕ) (hs : c.state = "up")
    (hl : c.last_angle = none) (hd : c.down_angle < θ) (hu : θ < c.up_angle) :
    (c.runAngles (List.replicate n θ)).state = "up" ∧
    (c.runAngles (List.replicate n θ)).rep_count = c.rep_count :=
  runAngles_const_up θ n c hs hd

/-- C6 witness: three copies of the dead-zone sample 100 on a fresh counter
with thresholds 70 and 160. -/
theorem c6_witness :
    ((⟨"left", 70, 160, 5, 0, "up", none⟩ : SquatCounter ℤ).runAngles
        (List.replicate 3 100)).state = "up" ∧
    ((⟨"left", 70, 160, 5, 0, "up", none⟩ : SquatCounter ℤ).runAngles
        (List.replicate 3 100)).rep_count = 0 :=
  c6_dead_zone_stability ⟨"left", 70, 160, 5, 0, "up", none⟩ 100 3 rfl rfl
    (by decide) (by decide)

/-- C3: when a required joint cannot be resolved from the landmark map, or the
resolved points give a degenerate (NaN) angle, update returns the pre-call
state with rep_completed false and leaves the counter — rep_count, state and
last_angle — exactly as it was. -/
theorem c3_data_unavailable_absorbed (c : SquatCounter ℝ) (landmarks : LandmarkMap)
    (h : resolveLandmarks c.side landmarks = none ∨
      ∃ hip knee ankle, resolveLandmarks c.side landmarks = some (hip, knee, ankle) ∧
        SquatCounter.angleAt hip knee ankle = none) :
    c.update landmarks = (c, { angle := none, state := c.state, rep_completed := false }) := by
  rcases h with h | ⟨hip, knee, ankle, hres, hang⟩
  · simp only [SquatCounter.update, h]
  · simp only [SquatCounter.update, hres, hang]

/-- C3 witness: an update with an empty landmark map changes nothing. -/
theorem c3_witness :
    resolveLandmarks "left" [] = none ∧
    SquatCounter.update ⟨"left", 70, 160, 5, 0, "up", none⟩ [] =
      (⟨"left", 70, 160, 5, 0, "up", none⟩,
       { angle := none, state := "up", rep_completed := false }) :=
  ⟨rfl, c3_data_unavailable_absorbed ⟨"left", 70, 160, 5, 0, "up", none⟩ [] (Or.inl rfl)⟩

/-- One stepAngle call raises rep_count by exactly the reported rep flag. -/
theorem stepAngle_rep_count {α : Type} [LinearOrderedRing α]
    (c : SquatCounter α) (θ : α) :
    (c.stepAngle θ).1.rep_count =
      c.rep_count + (if (c.stepAngle θ).2.rep_completed then 1 else 0) := by
  simp only [SquatCounter.stepAngle]
  split_ifs <;> first | rfl | simp_all

/-- One update call raises rep_count by exactly the reported rep flag. -/
theorem update_rep_count (c : SquatCounter ℝ) (lm : LandmarkMap) :
    (c.update lm).1.rep_count =
      c.rep_count + (if (c.update lm).2.rep_completed then 1 else 0) := by
  cases hres : resolveLandmarks c.side lm with
  | none => simp only [SquatCounter.update, hres]; rfl
  | some t =>
    obtain ⟨hip, knee, ankle⟩ := t
    cases hang : SquatCounter.angleAt hip knee ankle with
    | none => simp only [SquatCounter.update, hres, hang]; rfl
    | some θ =>
      simp only [SquatCounter.update, hres, hang]
      exact stepAngle_rep_count c θ

/-- Over a whole run, rep_count grows by the number of events that reported a
completed rep. -/
theorem runUpdates_rep_count (c : SquatCounter ℝ) (frames : List LandmarkMap) :
    (c.runUpdates frames).1.rep_count =
      c.rep_count + (c.runUpdates frames).2.countP (fun e => e.rep_completed) := by
  induction frames generalizing c with
  | nil => simp [SquatCounter.runUpdates]
  | cons lm rest ih =>
    simp only [SquatCounter.runUpdates, List.countP_cons]
    have h1 := update_rep_count c lm
    have h2 := ih (c.update lm).1
    omega

/-- C10: rep_count never decreases across updates — one update adds exactly 1
when it reports rep_completed true and 0 otherwise, so after any sequence of
updates rep_count equals its starting value plus the number of updates that
reported rep_completed true. -/
theorem c10_rep_count_accounting (c : SquatCounter ℝ) (lm : LandmarkMap)
    (frames : List LandmarkMap) :
    (c.update lm).1.rep_count =
      c.rep_count + (if (c.update lm).2.rep_completed then 1 else 0) ∧
    c.rep_count ≤ (c.runUpdates frames).1.rep_count ∧
    (c.runUpdates frames).1.rep_count =
      c.rep_count + (c.runUpdates frames).2.countP (fun e => e.rep_completed) :=
  ⟨update_rep_count c lm,
   le_of_le_of_eq (Nat.le_add_right _ _) (runUpdates_rep_count c frames).symm,
   runUpdates_rep_count c frames⟩

/-- A two-component Euclidean norm vanishes exactly when both components
do. -/
theorem sqrt_sumsq_eq_zero_iff (x y : ℝ) :
    Real.sqrt (x * x + y * y) = 0 ↔ x = 0 ∧ y = 0 := by
  rw [Real.sqrt_eq_zero']
  constructor
  · intro h
    have hx : x * x = 0 :=
      le_antisymm (by nlinarith [mul_self_nonneg y]) (mul_self_nonneg x)
    have hy : y * y = 0 :=
      le_antisymm (by nlinarith [mul_self_nonneg x]) (mul_self_nonneg y)
    exact ⟨mul_self_eq_zero.mp hx, mul_self_eq_zero.mp hy⟩
  · rintro ⟨hx, hy⟩
    rw [hx, hy]
    norm_num

/-- C4: the angle helper returns the undefined (NaN) result exactly when one
of the two limb vectors has zero magnitude, that is exactly when a = b or
c = b; every defined result is a number of degrees between 0 and 180. -/
theorem c4_angle_contract (a b c : Landmark) :
    (SquatCounter.angleAt a b c = none ↔ a = b ∨ c = b) ∧
    ∀ θ : ℝ, SquatCounter.angleAt a b c = some θ → 0 ≤ θ ∧ θ ≤ 180 := by
  constructor
  · constructor
    · intro h
      simp only [SquatCounter.angleAt] at h
      split_ifs at h with hcond
      · rcases hcond with h1 | h1
        · obtain ⟨hx, hy⟩ := (sqrt_sumsq_eq_zero_iff _ _).mp h1
          exact Or.inl (Prod.ext_iff.mpr ⟨sub_eq_zero.mp hx, sub_eq_zero.mp hy⟩)
        · obtain ⟨hx, hy⟩ := (sqrt_sumsq_eq_zero_iff _ _).mp h1
          exact Or.inr (Prod.ext_iff.mpr ⟨sub_eq_zero.mp hx, sub_eq_zero.mp hy⟩)
    · intro h
      simp only [SquatCounter.angleAt]
      split_ifs with hcond
      · rfl
      · exfalso
        apply hcond
        rcases h with h | h
        · exact Or.inl ((sqrt_sumsq_eq_zero_iff _ _).mpr
            ⟨by rw [h, sub_self], by rw [h, sub_self]⟩)
        · exact Or.inr ((sqrt_sumsq_eq_zero_iff _ _).mpr
            ⟨by rw [h, sub_self], by rw [h, sub_self]⟩)
  · intro θ h
    simp only [SquatCounter.angleAt] at h
    split_ifs at h with hcond
    have h2 := Option.some.inj h
    subst h2
    constructor
    · exact mul_nonneg (Real.arccos_nonneg _) (by positivity)
    · refine le_trans
        (mul_le_mul_of_nonneg_right (Real.arccos_le_pi _) (by positivity)) ?_
      rw [mul_comm, div_mul_cancel₀ _ Real.pi_ne_zero]

/-- C4 witness: the degenerate-free triple (0,0), (1,0), (0,0) has the defined
angle 0, which lies in [0, 180]. -/
theorem c4_witness :
    SquatCounter.angleAt (0, 0) (1, 0) (0, 0) = some 0 ∧
    (0 ≤ (0 : ℝ) ∧ (0 : ℝ) ≤ 180) := by
  have h : SquatCounter.angleAt (0, 0) (1, 0) (0, 0) = some 0 := by
    simp only [SquatCounter.angleAt]
    norm_num [Real.sqrt_one, Real.arccos_one]
  exact ⟨h, (c4_angle_contract (0, 0) (1, 0) (0, 0)).2 0 h⟩

/-- C7: the angle helper is symmetric in its two non-vertex points, including
the degenerate cases. -/
theorem c7_angle_symmetry (a b c : Landmark) :
    SquatCounter.angleAt a b c = SquatCounter.angleAt c b a := by
  simp only [SquatCounter.angleAt]
  by_cases h1 : Real.sqrt ((a.1 - b.1) * (a.1 - b.1) + (a.2 - b.2) * (a.2 - b.2)) = 0
  · by_cases h2 : Real.sqrt ((c.1 - b.1) * (c.1 - b.1) + (c.2 - b.2) * (c.2 - b.2)) = 0
    · rw [if_pos (Or.inl h1), if_pos (Or.inl h2)]
    · rw [if_pos (Or.inl h1), if_pos (Or.inr h1)]
  · by_cases h2 : Real.sqrt ((c.1 - b.1) * (c.1 - b.1) + (c.2 - b.2) * (c.2 - b.2)) = 0
    · rw [if_pos (Or.inr h2), if_pos (Or.inl h2)]
    · rw [if_neg (not_or.mpr ⟨h1, h2⟩), if_neg (not_or.mpr ⟨h2, h1⟩)]
      have hd : (c.1 - b.1) * (a.1 - b.1) + (c.2 - b.2) * (a.2 - b.2) =
          (a.1 - b.1) * (c.1 - b.1) + (a.2 - b.2) * (c.2 - b.2) := by ring
      have hn : Real.sqrt ((c.1 - b.1) * (c.1 - b.1) + (c.2 - b.2) * (c.2 - b.2)) *
            Real.sqrt ((a.1 - b.1) * (a.1 - b.1) + (a.2 - b.2) * (a.2 - b.2)) =
          Real.sqrt ((a.1 - b.1) * (a.1 - b.1) + (a.2 - b.2) * (a.2 - b.2)) *
            Real.sqrt ((c.1 - b.1) * (c.1 - b.1) + (c.2 - b.2) * (c.2 - b.2)) :=
        mul_comm _ _
      rw [hd, hn]
